import Mathlib

/-!
Shallow embedding of `rpicode.py` (smartcanerpi) and verification of the
specification's claims C1-C10.

The embedding covers: the GPIO polling loop of `main` (trigger debounce),
the capture step (`capture_jpeg`), the cascading geolocation fallback
(`scan_wifi`, `geo_from_mls`, `geo_from_ip`, `reverse_nominatim` and the
location section of `process_once`), and the OCR fallback
(`ocr_tesseract` and the text section of `process_once`).

External effects (clock readings, GPIO samples, subprocess output, HTTP
responses, the Tesseract engine) are passed in as explicit parameters, so
every definition is an executable function of the program inputs.
-/

namespace Smartcane

/-! ### Constants from the source (lines 51-53) -/

/-- Millisecond polling period `POLL_MS` from the source. -/
def POLL_MS : Nat := 40

/-- Millisecond debounce constant `DEBOUNCE_MS` from the source. -/
def DEBOUNCE_MS : Nat := 200

/-! ### The GPIO polling loop of `main` (lines 182-191)

The loop keeps `last` (the previous `GPIO.input` sample) and `last_t`
(initially the loop-start clock value, afterwards the clock value recorded
when the pipeline was last invoked).  Each iteration reads a sample and, if
`state != last and (now - last_t) * 1000 > DEBOUNCE_MS`, runs
`process_once()` and sets `last_t = now`; it then always sets
`last = state`.  Time is modelled in integral milliseconds (`Nat`); the
sequence of `(now, state)` pairs is the sequence of poll observations. -/

/-- The loop variables of `main`: `last` sampled level, `last_t` clock value
(ms) of loop start or of the most recent pipeline invocation. -/
structure LoopState where
  last : Bool
  last_t : Nat
deriving DecidableEq

/-- Run the polling loop of `main` over a list of `(time in ms, sampled
level)` observations, returning the times at which `process_once()` is
invoked (the emitted trigger events). -/
def runPolls (s : LoopState) : List (Nat × Bool) → List Nat
  | [] => []
  | (now, state) :: rest =>
    if state ≠ s.last ∧ DEBOUNCE_MS < now - s.last_t then
      now :: runPolls ⟨state, now⟩ rest
    else
      runPolls ⟨state, s.last_t⟩ rest

/-! ### Reference formulation of the actual trigger rule

`confirmedTriggers` restates, as a left fold, the rule the loop actually
implements: a trigger is emitted at a sample exactly when the sampled level
differs from the immediately preceding sample's level and more than
`DEBOUNCE_MS` has elapsed since the most recent trigger (or since loop
start).  It is compared with `runPolls` below. -/

/-- One step of the trigger rule, on an accumulator
`(previous level, last trigger time, triggers so far in reverse)`. -/
def triggerStep : (Bool × Nat × List Nat) → (Nat × Bool) → (Bool × Nat × List Nat)
  | (prev, lastTrig, fired), (now, level) =>
    if level ≠ prev ∧ DEBOUNCE_MS < now - lastTrig then
      (level, now, now :: fired)
    else
      (level, lastTrig, fired)

/-- The trigger times predicted by the rule, given the level observed before
the first sample and the reference time of the most recent trigger. -/
def confirmedTriggers (prev : Bool) (lastTrig : Nat) (samples : List (Nat × Bool)) : List Nat :=
  ((samples.foldl triggerStep (prev, lastTrig, [])).2.2).reverse

theorem foldl_triggerStep_eq (samples : List (Nat × Bool)) :
    ∀ (prev : Bool) (lastTrig : Nat) (fired : List Nat),
      ((samples.foldl triggerStep (prev, lastTrig, fired)).2.2).reverse
        = fired.reverse ++ runPolls ⟨prev, lastTrig⟩ samples := by
  induction samples with
  | nil => intro prev lastTrig fired; simp [runPolls]
  | cons hd tl ih =>
    intro prev lastTrig fired
    obtain ⟨now, level⟩ := hd
    simp only [List.foldl_cons, triggerStep, runPolls]
    by_cases h : level ≠ prev ∧ DEBOUNCE_MS < now - lastTrig
    · rw [if_pos h, if_pos h, ih]
      simp
    · rw [if_neg h, if_neg h, ih]

theorem chain_runPolls (samples : List (Nat × Bool)) :
    ∀ s : LoopState,
      List.Chain' (fun a b => a + DEBOUNCE_MS < b) (s.last_t :: runPolls s samples) := by
  induction samples with
  | nil => intro s; simp [runPolls]
  | cons hd tl ih =>
    intro s
    obtain ⟨now, level⟩ := hd
    simp only [runPolls]
    by_cases h : level ≠ s.last ∧ DEBOUNCE_MS < now - s.last_t
    · rw [if_pos h]
      refine List.chain'_cons.mpr ⟨by omega, ?_⟩
      exact ih ⟨level, now⟩
    · rw [if_neg h]
      exact ih ⟨level, s.last_t⟩

/-- C1: the claim as stated is false.  Starting from confirmed level
`false` at time 0, the level reads `true` only at the samples at
t = 1000 ms and t = 1040 ms and has reverted to `false` by the
t = 1080 ms sample, so it stays different from the confirmed level for
less than `DEBOUNCE_MS = 200` ms; the claim demands zero trigger events,
yet the loop emits one, at t = 1000 ms (the first sample that differs
from the previous sample arrives more than 200 ms after loop start). -/
theorem C1_reversal_counterexample :
    runPolls ⟨false, 0⟩ [(960, false), (1000, true), (1040, true), (1080, false)] = [1000]
      ∧ runPolls ⟨false, 0⟩ [(960, false), (1000, true), (1040, true), (1080, false)] ≠ [] := by
  constructor
  · rfl
  · decide

/-- C1 (amended): a trigger event is emitted at a poll sample if and only
if the sampled level differs from the immediately preceding sample's level
and more than `DEBOUNCE_MS` has elapsed since the most recent trigger (or
since loop start) — the rule `confirmedTriggers` — and consequently
consecutive trigger events (and loop start to first trigger) are separated
by more than `DEBOUNCE_MS`; a toggle that reverses before `DEBOUNCE_MS`
elapses can still produce one trigger event. -/
theorem C1_trigger_rule (s : LoopState) (samples : List (Nat × Bool)) :
    runPolls s samples = confirmedTriggers s.last s.last_t samples
      ∧ List.Chain' (fun a b => a + DEBOUNCE_MS < b) (s.last_t :: runPolls s samples) := by
  constructor
  · have h := foldl_triggerStep_eq samples s.last s.last_t []
    simpa [confirmedTriggers] using h.symm
  · exact chain_runPolls samples s

/-- C2: the claim as stated is false on both counts.  First scenario: the
level toggles to `true` just before the t = 1000 ms sample and holds
through t = 1240 ms; the loop emits its single trigger already at
t = 1000 ms, i.e. within one poll period of the change and well before
200 ms of stability have elapsed.  Second scenario: the loop starts at
time 0 and the level toggles immediately afterwards, holding `true`
through t = 240 ms; the loop emits zero trigger events (the change is
within `DEBOUNCE_MS` of loop start), not exactly one. -/
theorem C2_counterexample :
    runPolls ⟨false, 0⟩
        [(960, false), (1000, true), (1040, true), (1080, true), (1120, true),
          (1160, true), (1200, true), (1240, true)] = [1000]
      ∧ runPolls ⟨false, 0⟩
          [(40, true), (80, true), (120, true), (160, true), (200, true), (240, true)] = [] := by
  constructor
  · rfl
  · rfl

theorem runPolls_const_level (b : Bool) (ts : List Nat) :
    ∀ lastTrig : Nat, runPolls ⟨b, lastTrig⟩ (ts.map fun t => (t, b)) = [] := by
  induction ts with
  | nil => intro lastTrig; rfl
  | cons t ts ih =>
    intro lastTrig
    simp only [List.map_cons, runPolls]
    rw [if_neg (by simp)]
    exact ih lastTrig

/-- C2 (amended): for an input that holds the old level over `pre`, toggles,
and then holds the new level, the loop emits exactly one trigger event,
fired at the first poll sample showing the new level, provided more than
`DEBOUNCE_MS` has elapsed between the last trigger (or loop start) and that
sample; the event can occur earlier than 200 ms after the physical change
(as early as the next poll). -/
theorem C2_single_trigger (lastTrig toggleT : Nat) (pre post : List Nat)
    (h : DEBOUNCE_MS < toggleT - lastTrig) :
    runPolls ⟨false, lastTrig⟩
        ((pre.map fun t => (t, false)) ++ (toggleT, true) :: (post.map fun t => (t, true)))
      = [toggleT] := by
  induction pre with
  | nil =>
    simp only [List.map_nil, List.nil_append, runPolls]
    rw [if_pos ⟨by simp, h⟩]
    rw [runPolls_const_level]
  | cons t ts ih =>
    simp only [List.map_cons, List.cons_append, runPolls]
    rw [if_neg (by simp)]
    exact ih

/-- Concrete instance of `C2_single_trigger`: loop start at time 0, level
`false` at t = 920 and 960 ms, toggling to `true` at the t = 1000 ms sample
and holding through t = 1240 ms emits exactly the trigger at t = 1000 ms. -/
theorem C2_single_trigger_witness :
    DEBOUNCE_MS < 1000 - 0
      ∧ runPolls ⟨false, 0⟩
          (([920, 960].map fun t => (t, false))
            ++ (1000, true) :: ([1040, 1080, 1120, 1160, 1200, 1240].map fun t => (t, true)))
        = [1000] :=
  ⟨by decide, C2_single_trigger 0 1000 [920, 960] [1040, 1080, 1120, 1160, 1200, 1240] (by decide)⟩

/-! ### Python value domain for the location pipeline

The variables `lat`, `lon`, `acc` of `process_once` hold, depending on the
branch taken, `None`, a JSON number, or a string; the fallback decisions
`if not lat:` and `if lat:` use Python truthiness.  Numbers are modelled as
`Int` (what matters for truthiness is being zero or not). -/

inductive PyVal where
  | none
  | num (n : Int)
  | str (s : String)
deriving DecidableEq

/-- Python truthiness of the modelled values: `None`, `0`/`0.0` and `""`
are falsy, everything else truthy. -/
def truthy : PyVal → Bool
  | PyVal.none => false
  | PyVal.num n => n != 0
  | PyVal.str s => s != ""

/-! ### String helpers modelling the Python operations used by the source -/

/-- Python `str.split(sep)` for a one-character separator class: keeps
empty segments, `"".split(",") == [""]`. -/
def splitOnPred (p : Char → Bool) : List Char → List (List Char)
  | [] => [[]]
  | c :: rest =>
    if p c then [] :: splitOnPred p rest
    else
      match splitOnPred p rest with
      | [] => [[c]]
      | seg :: segs => (c :: seg) :: segs

/-- Python `raw.split("BSS ")`: left-to-right, non-overlapping split on the
literal four-character separator. -/
def splitBSS : List Char → List (List Char)
  | [] => [[]]
  | 'B' :: 'S' :: 'S' :: ' ' :: rest => [] :: splitBSS rest
  | c :: rest =>
    match splitBSS rest with
    | [] => [[c]]
    | seg :: segs => (c :: seg) :: segs

/-- Python `cell.split()` (no argument): split on whitespace runs, dropping
empty segments. -/
def pySplitWs (s : String) : List String :=
  ((splitOnPred Char.isWhitespace s.data).filter fun seg => !seg.isEmpty).map
    fun seg => String.mk seg

def startsWithChars : List Char → List Char → Bool
  | [], _ => true
  | _ :: _, [] => false
  | a :: as, b :: bs => a == b && startsWithChars as bs

def digitsToNat (ds : List Char) : Nat :=
  ds.foldl (fun n c => 10 * n + (c.toNat - 48)) 0

/-- Attempt to match the regex `signal:\s*(-\d+)` at the head of `l`,
returning `int(group(1))` on success. -/
def matchSignalHere (l : List Char) : Option Int :=
  if startsWithChars "signal:".data l then
    match (l.drop 7).dropWhile Char.isWhitespace with
    | '-' :: r =>
      match r.takeWhile Char.isDigit with
      | [] => Option.none
      | ds => Option.some (-(Int.ofNat (digitsToNat ds)))
    | _ => Option.none
  else Option.none

/-- Model of `re.search(r"signal:\s*(-\d+)", cell)`: first match anywhere in the
cell, or `None`. -/
def findSignal : List Char → Option Int
  | [] => Option.none
  | c :: rest =>
    match matchSignalHere (c :: rest) with
    | Option.some v => Option.some v
    | Option.none => findSignal rest

/-! ### `scan_wifi` (lines 88-95) -/

/-- An access-point record `{"macAddress": mac, "signalStrength": int(m.group(1))}`. -/
structure AccessPoint where
  macAddress : String
  signalStrength : Int
deriving DecidableEq

/-- Outcome of `subprocess.check_output(["sudo","iw",...])` in `scan_wifi`:
the decoded scan output, or a raised `CalledProcessError`/`OSError`
(`fail`).  Nothing in `scan_wifi` or its callers catches that exception. -/
inductive ScanSubprocess where
  | ok (raw : String)
  | fail
deriving DecidableEq

/-- The parsing loop of `scan_wifi` over the cells of the scan output.
`cell.split()[0]` raises `IndexError` on a cell with no tokens, modelled as
`Except.error ()`; a cell appends an access point only when `mac` is truthy
and the signal regex matched (`if mac and m`). -/
def scanCells : List String → Except Unit (List AccessPoint)
  | [] => Except.ok []
  | cell :: rest =>
    match pySplitWs cell with
    | [] => Except.error ()
    | mac :: _ =>
      match findSignal cell.data with
      | Option.some sig =>
        match scanCells rest with
        | Except.error e => Except.error e
        | Except.ok aps =>
          if mac ≠ "" then
            Except.ok ({ macAddress := mac, signalStrength := sig } :: aps)
          else Except.ok aps
      | Option.none => scanCells rest

/-- Embedding of `scan_wifi()`: run the scan subprocess (exceptions propagate), split the
output on `"BSS "`, drop the text before the first cell, parse the cells,
and return at most the first 20 access points (`aps[:20]`). -/
def scan_wifi (sub : ScanSubprocess) : Except Unit (List AccessPoint) :=
  match sub with
  | ScanSubprocess.fail => Except.error ()
  | ScanSubprocess.ok raw =>
    match scanCells (((splitBSS raw.data).drop 1).map fun cell => String.mk cell) with
    | Except.error e => Except.error e
    | Except.ok aps => Except.ok (aps.take 20)

/-! ### `geo_from_mls` (lines 97-106) -/

/-- Parsed outcome of the MLS geolocation request: `failure` covers every
exception raised inside the `try` block (network error, timeout, JSON
decode error, missing `location`/`lat`/`lng` keys); `success` carries the
numeric `lat`/`lng` and the optional `accuracy` field, which the source
reads with `loc.get("accuracy")`. -/
inductive MLSResponse where
  | failure
  | success (lat lng : Int) (accuracy : Option Int)
deriving DecidableEq

/-- Embedding of `geo_from_mls()`: scan WiFi (uncaught exceptions propagate), return
`(None, None, None)` on an empty scan, otherwise submit to MLS; any
exception inside the `try` yields `(None, None, None)`. -/
def geo_from_mls (sub : ScanSubprocess) (resp : MLSResponse) :
    Except Unit (PyVal × PyVal × PyVal) :=
  match scan_wifi sub with
  | Except.error e => Except.error e
  | Except.ok aps =>
    if aps.isEmpty then Except.ok (PyVal.none, PyVal.none, PyVal.none)
    else
      match resp with
      | MLSResponse.failure => Except.ok (PyVal.none, PyVal.none, PyVal.none)
      | MLSResponse.success lat lng acc =>
        Except.ok (PyVal.num lat, PyVal.num lng,
          match acc with
          | Option.some a => PyVal.num a
          | Option.none => PyVal.none)

/-! ### `geo_from_ip` (lines 108-114) -/

/-- Parsed outcome of the `ipinfo.io` request: `failure` is any exception
inside the `try` (network error, timeout, JSON decode error); `success`
carries the optional `"loc"` field of the response body. -/
inductive IPResponse where
  | failure
  | success (loc : Option String)
deriving DecidableEq

/-- Embedding of `geo_from_ip()`: `lat, lon = j.get("loc","").split(",") if "loc" in j
else (None, None)`, returning accuracy `50000`; a `"loc"` value that does
not split into exactly two parts raises `ValueError`, which the `except`
turns into `(None, None, None)`. -/
def geo_from_ip (resp : IPResponse) : PyVal × PyVal × PyVal :=
  match resp with
  | IPResponse.failure => (PyVal.none, PyVal.none, PyVal.none)
  | IPResponse.success Option.none => (PyVal.none, PyVal.none, PyVal.num 50000)
  | IPResponse.success (Option.some loc) =>
    match splitOnPred (fun c => c == ',') loc.data with
    | [a, b] => (PyVal.str (String.mk a), PyVal.str (String.mk b), PyVal.num 50000)
    | _ => (PyVal.none, PyVal.none, PyVal.none)

/-! ### `reverse_nominatim` (lines 116-129) -/

/-- The `address` object of a Nominatim `jsonv2` reverse-geocoding
response; each component may be absent. -/
structure Address where
  road : Option String
  suburb : Option String
  neighbourhood : Option String
  city : Option String
  town : Option String
  village : Option String
  state : Option String
deriving DecidableEq

/-- Outcome of the Nominatim request: `failure` is any exception inside the
`try`; `success` carries `j.get("address", {})`. -/
inductive NominatimResponse where
  | failure
  | success (address : Address)
deriving DecidableEq

/-- Python chain `addr.get(k1) or addr.get(k2) or ... or ""`: the first
present, non-empty value, else `""`. -/
def pyOrStr : List (Option String) → String
  | [] => ""
  | Option.none :: rest => pyOrStr rest
  | Option.some s :: rest => if s ≠ "" then s else pyOrStr rest

/-- Embedding of `reverse_nominatim(lat, lon)`: select road, suburb-or-neighbourhood,
city-or-town-or-village, state and join the non-empty ones with `", "`;
any exception yields `""`. -/
def reverse_nominatim (resp : NominatimResponse) : String :=
  match resp with
  | NominatimResponse.failure => ""
  | NominatimResponse.success addr =>
    let rua := pyOrStr [addr.road]
    let bairro := pyOrStr [addr.suburb, addr.neighbourhood]
    let cidade := pyOrStr [addr.city, addr.town, addr.village]
    let estado := pyOrStr [addr.state]
    String.intercalate ", " (([rua, bairro, cidade, estado]).filter fun x => x != "")

/-! ### The location section of `process_once` (lines 169-174) -/

/-- Lines 169-170, additionally recording whether `geo_from_ip()` was
attempted: `lat, lon, acc = geo_from_mls()`; `if not lat: lat, lon, acc =
geo_from_ip()`. -/
def resolve_location_traced (sub : ScanSubprocess) (mls : MLSResponse) (ip : IPResponse) :
    Except Unit ((PyVal × PyVal × PyVal) × Bool) :=
  match geo_from_mls sub mls with
  | Except.error e => Except.error e
  | Except.ok r =>
    if truthy r.1 then Except.ok (r, false)
    else Except.ok (geo_from_ip ip, true)

/-- The `(lat, lon, acc)` triple after lines 169-170. -/
def resolve_location (sub : ScanSubprocess) (mls : MLSResponse) (ip : IPResponse) :
    Except Unit (PyVal × PyVal × PyVal) :=
  match resolve_location_traced sub mls ip with
  | Except.error e => Except.error e
  | Except.ok (r, _) => Except.ok r

/-- Line 172: `place = reverse_nominatim(lat, lon) or "local não
identificado"`. -/
def place_or_default (place : String) : String :=
  if place = "" then "local não identificado" else place

/-- Line 173: the narrated location message, with the accuracy already
converted by `int(acc)`. -/
def location_message (place : String) (acc : Int) : String :=
  "Estamos na região de " ++ place ++ ". Precisão aproximada " ++ toString acc ++ " metros."

/-! ### C3: IP stage attempted iff the WiFi stage yielded no fix -/

/-- C3: evaluation at the failing input.  With a non-empty scan, the MLS
service succeeds with latitude 0.0 (a point on the equator), longitude 10
and accuracy 25 — a successful WiFi fix — yet because `0.0` is falsy in
`if not lat:`, the code attempts the IP stage and replaces the WiFi fix
with the IP result. -/
theorem C3_zero_latitude_bug :
    geo_from_mls (ScanSubprocess.ok "BSS aa:bb:cc signal: -40")
        (MLSResponse.success 0 10 (Option.some 25))
      = Except.ok (PyVal.num 0, PyVal.num 10, PyVal.num 25)
      ∧ resolve_location_traced (ScanSubprocess.ok "BSS aa:bb:cc signal: -40")
          (MLSResponse.success 0 10 (Option.some 25)) (IPResponse.success (Option.some "7,8"))
        = Except.ok ((PyVal.str "7", PyVal.str "8", PyVal.num 50000), true) := by
  exact ⟨rfl, rfl⟩

/-! ### C5: no exception propagation from the location stages -/

/-- C5: the claim as stated is false.  A failure of the WiFi scan
subprocess (`subprocess.check_output` raising) is not caught anywhere:
`geo_from_mls` and the whole location section of `process_once` propagate
the exception to their caller instead of recovering it as "no fix". -/
theorem C5_scan_failure_propagates :
    geo_from_mls ScanSubprocess.fail MLSResponse.failure = Except.error ()
      ∧ resolve_location ScanSubprocess.fail MLSResponse.failure IPResponse.failure
        = Except.error () := by
  exact ⟨rfl, rfl⟩

theorem geo_from_mls_ok (sub : ScanSubprocess) (aps : List AccessPoint) (mls : MLSResponse)
    (h : scan_wifi sub = Except.ok aps) : ∃ v, geo_from_mls sub mls = Except.ok v := by
  simp only [geo_from_mls, h]
  by_cases he : aps.isEmpty
  · rw [if_pos he]; exact ⟨_, rfl⟩
  · rw [if_neg he]
    cases mls with
    | failure => exact ⟨_, rfl⟩
    | success lat lng acc => exact ⟨_, rfl⟩

/-- C5 (amended): once the WiFi scan subprocess has succeeded and its
output parsed, no location stage ever propagates an exception — the MLS
lookup, the IP lookup and the reverse geocoding recover every provider
failure locally (reverse geocoding as the empty `Place`); but a raised
exception in the WiFi scan itself propagates to the caller, so the
resolver returns normally exactly when the scan does. -/
theorem C5_no_raise_except_scan (sub : ScanSubprocess) (mls : MLSResponse) (ip : IPResponse) :
    ((∃ r, resolve_location sub mls ip = Except.ok r)
        ↔ (∃ aps, scan_wifi sub = Except.ok aps))
      ∧ reverse_nominatim NominatimResponse.failure = "" := by
  constructor
  · constructor
    · rintro ⟨r, hr⟩
      cases hs : scan_wifi sub with
      | error e =>
        simp only [resolve_location, resolve_location_traced, geo_from_mls, hs] at hr
        exact Except.noConfusion hr
      | ok aps => exact ⟨aps, rfl⟩
    · rintro ⟨aps, hs⟩
      obtain ⟨v, hv⟩ := geo_from_mls_ok sub aps mls hs
      simp only [resolve_location, resolve_location_traced, hv]
      by_cases ht : truthy v.1 = true
      · refine ⟨v, ?_⟩
        rw [if_pos ht]
      · refine ⟨geo_from_ip ip, ?_⟩
        rw [if_neg ht]
  · rfl

/-- Concrete instance of `C5_no_raise_except_scan`: with an empty scan
output and both geolocation services failing, the resolver still returns
normally. -/
theorem C5_witness :
    ∃ r, resolve_location (ScanSubprocess.ok "") MLSResponse.failure IPResponse.failure
      = Except.ok r :=
  (C5_no_raise_except_scan (ScanSubprocess.ok "") MLSResponse.failure IPResponse.failure).1.mpr
    ⟨[], rfl⟩

/-! ### C6: shape of the resolver's `(lat, lon, acc)` result -/

/-- C6: the claim as stated is false.  With a non-empty scan, the MLS
service can answer with a location but no `accuracy` field
(`loc.get("accuracy")` is then `None`): the resolver returns a fix with
non-null latitude and longitude but a null accuracy. -/
theorem C6_null_accuracy_counterexample :
    resolve_location (ScanSubprocess.ok "BSS aa:bb:cc signal: -40")
        (MLSResponse.success 1 2 Option.none) IPResponse.failure
      = Except.ok (PyVal.num 1, PyVal.num 2, PyVal.none)
      ∧ PyVal.num 1 ≠ PyVal.none ∧ PyVal.num 2 ≠ PyVal.none := by
  refine ⟨rfl, by decide, by decide⟩

theorem geo_from_ip_shape (ip : IPResponse) :
    ((geo_from_ip ip).1 = PyVal.none ∧ (geo_from_ip ip).2.1 = PyVal.none)
      ∨ ((geo_from_ip ip).1 ≠ PyVal.none ∧ (geo_from_ip ip).2.1 ≠ PyVal.none
          ∧ (geo_from_ip ip).2.2 ≠ PyVal.none) := by
  cases ip with
  | failure => left; exact ⟨rfl, rfl⟩
  | success loc =>
    cases loc with
    | none => left; exact ⟨rfl, rfl⟩
    | some s =>
      simp only [geo_from_ip]
      generalize splitOnPred (fun c => c == ',') s.data = parts
      match parts with
      | [] => left; exact ⟨rfl, rfl⟩
      | [a] => left; exact ⟨rfl, rfl⟩
      | [a, b] => right; refine ⟨by simp, by simp, by simp⟩
      | a :: b :: c :: rest => left; exact ⟨rfl, rfl⟩

theorem resolve_location_eq (sub : ScanSubprocess) (mls : MLSResponse) (ip : IPResponse)
    (v : PyVal × PyVal × PyVal) (hv : geo_from_mls sub mls = Except.ok v) :
    resolve_location sub mls ip
      = Except.ok (if truthy v.1 = true then v else geo_from_ip ip) := by
  simp only [resolve_location, resolve_location_traced, hv]
  by_cases ht : truthy v.1 = true
  · rw [if_pos ht, if_pos ht]
  · rw [if_neg ht, if_neg ht]

theorem geo_from_mls_cases (sub : ScanSubprocess) (mls : MLSResponse)
    (v : PyVal × PyVal × PyVal) (hv : geo_from_mls sub mls = Except.ok v) :
    v = (PyVal.none, PyVal.none, PyVal.none)
      ∨ ∃ lat lng acc, mls = MLSResponse.success lat lng acc
          ∧ v = (PyVal.num lat, PyVal.num lng,
              match acc with
              | Option.some a => PyVal.num a
              | Option.none => PyVal.none) := by
  cases hs : scan_wifi sub with
  | error e =>
    simp only [geo_from_mls, hs] at hv
    exact Except.noConfusion hv
  | ok aps =>
    simp only [geo_from_mls, hs] at hv
    by_cases he : aps.isEmpty
    · rw [if_pos he] at hv
      left; cases hv; rfl
    · rw [if_neg he] at hv
      cases mls with
      | failure => left; cases hv; rfl
      | success lat lng acc =>
        right; exact ⟨lat, lng, acc, rfl, by cases hv; rfl⟩

/-- C6 (amended): every normally returned resolver result is either a
no-fix with null latitude and longitude, or a fix with non-null latitude
and longitude whose accuracy is non-null except when the fix came from a
WiFi-service response that omitted the `accuracy` field (then the accuracy
is null). -/
theorem C6_fix_shape (sub : ScanSubprocess) (mls : MLSResponse) (ip : IPResponse)
    (r : PyVal × PyVal × PyVal) (h : resolve_location sub mls ip = Except.ok r) :
    (r.1 = PyVal.none ∧ r.2.1 = PyVal.none)
      ∨ (r.1 ≠ PyVal.none ∧ r.2.1 ≠ PyVal.none
          ∧ (r.2.2 ≠ PyVal.none ∨ ∃ lat lng, mls = MLSResponse.success lat lng Option.none)) := by
  cases hres : geo_from_mls sub mls with
  | error e =>
    simp only [resolve_location, resolve_location_traced, hres] at h
    exact Except.noConfusion h
  | ok v =>
    have hrl := resolve_location_eq sub mls ip v hres
    have heq := h.symm.trans hrl
    simp only [Except.ok.injEq] at heq
    subst heq
    by_cases ht : truthy v.1 = true
    · rw [if_pos ht]
      rcases geo_from_mls_cases sub mls v hres with hv0 | ⟨lat, lng, acc, hmls, hv⟩
      · subst hv0; simp [truthy] at ht
      · subst hv
        refine Or.inr ⟨by simp, by simp, ?_⟩
        cases acc with
        | some a => exact Or.inl (by simp)
        | none => exact Or.inr ⟨lat, lng, hmls⟩
    · rw [if_neg ht]
      rcases geo_from_ip_shape ip with hl | hr'
      · exact Or.inl hl
      · exact Or.inr ⟨hr'.1, hr'.2.1, Or.inl hr'.2.2⟩

/-- Concrete instance of `C6_fix_shape`: an empty scan with both services
failing yields the all-null no-fix result. -/
theorem C6_witness :
    (((PyVal.none, PyVal.none, PyVal.none) : PyVal × PyVal × PyVal).1 = PyVal.none
        ∧ ((PyVal.none, PyVal.none, PyVal.none) : PyVal × PyVal × PyVal).2.1 = PyVal.none)
      ∨ (((PyVal.none, PyVal.none, PyVal.none) : PyVal × PyVal × PyVal).1 ≠ PyVal.none
          ∧ ((PyVal.none, PyVal.none, PyVal.none) : PyVal × PyVal × PyVal).2.1 ≠ PyVal.none
          ∧ (((PyVal.none, PyVal.none, PyVal.none) : PyVal × PyVal × PyVal).2.2 ≠ PyVal.none
              ∨ ∃ lat lng, MLSResponse.failure = MLSResponse.success lat lng Option.none)) :=
  C6_fix_shape (ScanSubprocess.ok "") MLSResponse.failure IPResponse.failure
    (PyVal.none, PyVal.none, PyVal.none) rfl

/-! ### C9: place rendering -/

/-- The address of the claim's first example: road `"Rua A"`, empty suburb,
city `"Cidade B"`, empty state. -/
def addrExample : Address :=
  { road := Option.some "Rua A", suburb := Option.some "", neighbourhood := Option.none,
    city := Option.some "Cidade B", town := Option.none, village := Option.none,
    state := Option.some "" }

/-- The all-empty address of the claim's second example. -/
def addrAllEmpty : Address :=
  { road := Option.some "", suburb := Option.some "", neighbourhood := Option.some "",
    city := Option.some "", town := Option.some "", village := Option.some "",
    state := Option.some "" }

/-- C9: place rendering joins exactly the non-empty components with `", "`:
the example address renders as `"Rua A, Cidade B"`, the all-empty address
renders as `""`, and the orchestrator substitutes the fixed placeholder in
the narrated message. -/
theorem C9_place_rendering :
    reverse_nominatim (NominatimResponse.success addrExample) = "Rua A, Cidade B"
      ∧ reverse_nominatim (NominatimResponse.success addrAllEmpty) = ""
      ∧ place_or_default (reverse_nominatim (NominatimResponse.success addrAllEmpty))
          = "local não identificado"
      ∧ location_message
            (place_or_default (reverse_nominatim (NominatimResponse.success addrAllEmpty))) 50000
          = "Estamos na região de local não identificado. Precisão aproximada 50000 metros." := by
  exact ⟨rfl, rfl, rfl, rfl⟩

/-! ### `capture_jpeg` (lines 77-85) and the fate of a capture failure (C4) -/

/-- Behaviour of the capture device inside `capture_jpeg`: `ok` is a
successful `cap.read()` (with the encoded JPEG bytes); `noFrame` covers a
device that cannot be opened or returns no frame, in which case `ok` is
false and the source raises `RuntimeError("Falha na câmera")`. -/
inductive CaptureResult where
  | ok (jpeg : String)
  | noFrame
deriving DecidableEq

/-- Embedding of `capture_jpeg()`: the encoded frame, or the raised `RuntimeError`. -/
def capture_jpeg : CaptureResult → Except Unit String
  | CaptureResult.ok j => Except.ok j
  | CaptureResult.noFrame => Except.error ()

/-- The polling loop of `main` with the capture step of `process_once` made
explicit.  `dev` gives the capture device's behaviour at each trigger
time.  A `RuntimeError` raised by `capture_jpeg` is caught nowhere in
`main` (the `try` around the loop only catches `KeyboardInterrupt`), so
the exception terminates the loop.  Result: the list of trigger times at
which the pipeline was invoked, and `true` iff the loop was terminated by
the propagated exception. -/
def runPollsExc (dev : Nat → CaptureResult) (s : LoopState) :
    List (Nat × Bool) → List Nat × Bool
  | [] => ([], false)
  | (now, state) :: rest =>
    if state ≠ s.last ∧ DEBOUNCE_MS < now - s.last_t then
      match capture_jpeg (dev now) with
      | Except.error _ => ([now], true)
      | Except.ok _ =>
        (now :: (runPollsExc dev ⟨state, now⟩ rest).1, (runPollsExc dev ⟨state, now⟩ rest).2)
    else
      runPollsExc dev ⟨state, s.last_t⟩ rest

/-- C4: the claim as stated is false.  The capture device fails at the
trigger at t = 1000 ms; the loop terminates with the propagated exception
(`true` flag) instead of resuming: the later toggle at t = 1800 ms, which
a resumed loop would trigger on, is never processed. -/
theorem C4_counterexample :
    runPollsExc (fun t => if t = 1000 then CaptureResult.noFrame else CaptureResult.ok "jpeg")
        ⟨false, 0⟩ [(960, false), (1000, true), (1400, true), (1800, false), (1840, false)]
      = ([1000], true) := by
  rfl

/-- C4 (amended): a capture failure is fatal not only for the current
triggered run but for the polling loop itself: whenever the loop ends with
the propagated exception, the failing trigger is the last pipeline
invocation — every earlier invocation had a successful capture and no
later toggle is processed. -/
theorem C4_crash_stops_loop (dev : Nat → CaptureResult) (s : LoopState)
    (samples : List (Nat × Bool)) (h : (runPollsExc dev s samples).2 = true) :
    ∃ pre t, (runPollsExc dev s samples).1 = pre ++ [t]
      ∧ capture_jpeg (dev t) = Except.error ()
      ∧ ∀ u ∈ pre, ∃ j, capture_jpeg (dev u) = Except.ok j := by
  induction samples generalizing s with
  | nil => simp [runPollsExc] at h
  | cons hd tl ih =>
    obtain ⟨now, state⟩ := hd
    by_cases hg : state ≠ s.last ∧ DEBOUNCE_MS < now - s.last_t
    · cases hc : capture_jpeg (dev now) with
      | error e =>
        simp only [runPollsExc, if_pos hg, hc] at h ⊢
        refine ⟨[], now, by simp, ?_, by simp⟩
        cases e
        exact hc
      | ok j =>
        simp only [runPollsExc, if_pos hg, hc] at h ⊢
        obtain ⟨pre, t, h1, h2, h3⟩ := ih ⟨state, now⟩ h
        refine ⟨now :: pre, t, by simp [h1], h2, ?_⟩
        intro u hu
        rcases List.mem_cons.mp hu with rfl | hu'
        · exact ⟨j, hc⟩
        · exact h3 u hu'
    · simp only [runPollsExc, if_neg hg] at h ⊢
      exact ih ⟨state, s.last_t⟩ h

/-- Concrete instance of `C4_crash_stops_loop`: a device that always fails
makes the first trigger the last pipeline invocation. -/
theorem C4_crash_witness :
    ∃ pre t,
      (runPollsExc (fun _ => CaptureResult.noFrame) ⟨false, 0⟩ [(500, true)]).1 = pre ++ [t]
        ∧ capture_jpeg ((fun _ => CaptureResult.noFrame) t) = Except.error ()
        ∧ ∀ u ∈ pre, ∃ j, capture_jpeg ((fun _ => CaptureResult.noFrame) u) = Except.ok j :=
  C4_crash_stops_loop (fun _ => CaptureResult.noFrame) ⟨false, 0⟩ [(500, true)] rfl

/-! ### `ocr_tesseract` (lines 132-136) and the text section of
`process_once` (lines 152-166) -/

/-- Abstract image value produced inside `ocr_tesseract`: the grayscale
conversion (`cv2.cvtColor(..., COLOR_BGR2GRAY)`) of the decoded JPEG
frame. -/
inductive GrayImage where
  | cvtGray (jpeg : String)
deriving DecidableEq

/-- Python character-wise `str.upper()`. -/
def pyUpper (s : String) : String := String.mk (s.data.map Char.toUpper)

/-- Python `str.strip()`: remove leading and trailing whitespace. -/
def pyStrip (s : String) : String :=
  String.mk (((s.data.dropWhile Char.isWhitespace).reverse.dropWhile Char.isWhitespace).reverse)

/-- Embedding of `ocr_tesseract(jpeg)`: run the external OCR engine
(`pytesseract.image_to_string`, passed in as the oracle `image_to_string`)
on the grayscale conversion of the frame with the language hint
`"por+eng"`, and strip the result. -/
def ocr_tesseract (image_to_string : GrayImage → String → String) (jpeg : String) : String :=
  pyStrip (image_to_string (GrayImage.cvtGray jpeg) "por+eng")

/-- Lines 159-163, given that the text branch was entered: the remote
model's reply is stripped (line 159); when it equals the `SEM_TEXTO`
sentinel case-insensitively or is shorter than 20 characters, the local
engine replaces it.  Returns the final `text` together with whether
Tesseract was invoked. -/
def extract_text (image_to_string : GrayImage → String → String) (jpeg : String)
    (remote_content : String) : String × Bool :=
  let text := pyStrip remote_content
  if pyUpper text = "SEM_TEXTO" ∨ text.length < 20 then
    (ocr_tesseract image_to_string jpeg, true)
  else
    (text, false)

/-- Python substring membership `needle in haystack`, on character
lists. -/
def containsSeq (needle : List Char) : List Char → Bool
  | [] => needle.isEmpty
  | c :: rest => startsWithChars needle (c :: rest) || containsSeq needle rest

/-- Line 153: the branch condition `"TEXTO_PRESENTE=SIM" in desc.upper()`. -/
def text_branch (desc : String) : Bool :=
  containsSeq "TEXTO_PRESENTE=SIM".data (pyUpper desc).data

/-- C7: when the remote extraction is the sentinel (any case) or shorter
than 20 characters, the returned text is the local engine's output for the
frame: Tesseract on the grayscale conversion with language hints
Portuguese plus English, trimmed of surrounding whitespace. -/
theorem C7_tesseract_fallback (image_to_string : GrayImage → String → String)
    (jpeg remote : String)
    (h : pyUpper (pyStrip remote) = "SEM_TEXTO" ∨ (pyStrip remote).length < 20) :
    extract_text image_to_string jpeg remote = (ocr_tesseract image_to_string jpeg, true)
      ∧ ocr_tesseract image_to_string jpeg
        = pyStrip (image_to_string (GrayImage.cvtGray jpeg) "por+eng") := by
  refine ⟨?_, rfl⟩
  simp only [extract_text]
  rw [if_pos h]

/-- Concrete instance of `C7_tesseract_fallback`: a lowercase sentinel
reply falls back to the engine's (stripped) output. -/
theorem C7_witness :
    (pyUpper (pyStrip " sem_texto ") = "SEM_TEXTO" ∨ (pyStrip " sem_texto ").length < 20)
      ∧ extract_text (fun _ _ => " um texto qualquer ") "jpeg" " sem_texto "
        = (ocr_tesseract (fun _ _ => " um texto qualquer ") "jpeg", true)
      ∧ ocr_tesseract (fun _ _ => " um texto qualquer ") "jpeg" = "um texto qualquer" :=
  ⟨by decide,
    (C7_tesseract_fallback (fun _ _ => " um texto qualquer ") "jpeg" " sem_texto " (by decide)).1,
    rfl⟩

/-- C8: when the remote extraction is not the sentinel and has at least 20
characters, it is returned verbatim and the local engine is never invoked
(`false` flag). -/
theorem C8_remote_sufficient (image_to_string : GrayImage → String → String)
    (jpeg remote : String)
    (h1 : pyUpper (pyStrip remote) ≠ "SEM_TEXTO") (h2 : 20 ≤ (pyStrip remote).length) :
    extract_text image_to_string jpeg remote = (pyStrip remote, false) := by
  have h : ¬(pyUpper (pyStrip remote) = "SEM_TEXTO" ∨ (pyStrip remote).length < 20) := by
    rintro (ha | hb)
    · exact h1 ha
    · omega
  simp only [extract_text]
  rw [if_neg h]

/-- Concrete instance of `C8_remote_sufficient`. -/
theorem C8_witness :
    pyUpper (pyStrip "Uma frase com mais de vinte caracteres.") ≠ "SEM_TEXTO"
      ∧ 20 ≤ (pyStrip "Uma frase com mais de vinte caracteres.").length
      ∧ extract_text (fun _ _ => "engine") "jpeg" "Uma frase com mais de vinte caracteres."
        = (pyStrip "Uma frase com mais de vinte caracteres.", false) :=
  ⟨by decide, by decide,
    C8_remote_sufficient (fun _ _ => "engine") "jpeg" "Uma frase com mais de vinte caracteres."
      (by decide) (by decide)⟩

/-! ### C10: the text branch condition is a case-insensitive substring
test -/

/-- The scene description contains the marker `TEXTO_PRESENTE=SIM`
case-insensitively as a substring anywhere: some segment of the
description uppercases to the marker. -/
def marker_occurs (desc : String) : Prop :=
  ∃ pre mid post, desc.data = pre ++ mid ++ post
    ∧ mid.map Char.toUpper = "TEXTO_PRESENTE=SIM".data

theorem startsWithChars_iff (n : List Char) :
    ∀ l, startsWithChars n l = true ↔ ∃ q, l = n ++ q := by
  induction n with
  | nil => intro l; simp [startsWithChars]
  | cons a as ih =>
    intro l
    cases l with
    | nil =>
      simp only [startsWithChars, List.cons_append]
      constructor
      · intro h; cases h
      · rintro ⟨q, hq⟩; cases hq
    | cons b bs =>
      simp only [startsWithChars, Bool.and_eq_true, beq_iff_eq]
      constructor
      · rintro ⟨hab, h⟩
        obtain ⟨q, rfl⟩ := (ih bs).mp h
        exact ⟨q, by rw [hab]; rfl⟩
      · rintro ⟨q, hq⟩
        rw [List.cons_append] at hq
        injection hq with hx hy
        exact ⟨hx.symm, (ih bs).mpr ⟨q, hy⟩⟩

theorem containsSeq_iff (n : List Char) :
    ∀ h, containsSeq n h = true ↔ ∃ p q, h = p ++ n ++ q := by
  intro h
  induction h with
  | nil =>
    simp only [containsSeq, List.isEmpty_iff]
    constructor
    · rintro rfl; exact ⟨[], [], rfl⟩
    · rintro ⟨p, q, hpq⟩
      rcases List.append_eq_nil.mp (List.append_eq_nil.mp hpq.symm).1 with ⟨_, hn⟩
      exact hn.symm ▸ rfl
  | cons c rest ih =>
    simp only [containsSeq, Bool.or_eq_true]
    rw [startsWithChars_iff, ih]
    constructor
    · rintro (⟨q, hq⟩ | ⟨p, q, rfl⟩)
      · exact ⟨[], q, by simpa using hq⟩
      · exact ⟨c :: p, q, rfl⟩
    · rintro ⟨p, q, hpq⟩
      cases p with
      | nil => exact Or.inl ⟨q, by simpa using hpq⟩
      | cons x xs =>
        rw [List.cons_append, List.cons_append] at hpq
        injection hpq with hx hy
        exact Or.inr ⟨xs, q, hy⟩

theorem containsSeq_map_toUpper (pat : List Char) (l : List Char) :
    containsSeq pat (l.map Char.toUpper) = true
      ↔ ∃ pre mid post, l = pre ++ mid ++ post ∧ mid.map Char.toUpper = pat := by
  rw [containsSeq_iff]
  constructor
  · rintro ⟨p, q, hpq⟩
    obtain ⟨l1, l2, rfl, hl1, hl2⟩ := List.map_eq_append_iff.mp hpq
    obtain ⟨l11, l12, rfl, hl11, hl12⟩ := List.map_eq_append_iff.mp hl1
    exact ⟨l11, l12, l2, rfl, hl12⟩
  · rintro ⟨pre, mid, post, rfl, hmid⟩
    exact ⟨pre.map Char.toUpper, post.map Char.toUpper, by simp [hmid]⟩

/-- C10: the text-extraction branch is entered if and only if
`TEXTO_PRESENTE=SIM` occurs case-insensitively as a substring anywhere in
the scene description — not only as an isolated trailing line. -/
theorem C10_marker_substring (desc : String) :
    text_branch desc = true ↔ marker_occurs desc := by
  unfold text_branch marker_occurs
  have hdata : (pyUpper desc).data = desc.data.map Char.toUpper := rfl
  rw [hdata, containsSeq_map_toUpper]

/-- Concrete instance of `C10_marker_substring`: a lowercase marker in the
middle of a sentence still enters the branch. -/
theorem C10_witness :
    text_branch "placa: texto_presente=sim aqui" = true :=
  (C10_marker_substring "placa: texto_presente=sim aqui").mpr
    ⟨"placa: ".data, "texto_presente=sim".data, " aqui".data, by decide, by decide⟩

end Smartcane
